import Mathlib

/-!
Shallow embedding of the VeritasAI backend (Python) for specification checking.

Scores are modelled with `Rat`; Python byte strings with `List Nat`;
Python `str` values with `String` (or `List Char` where slicing proofs need it).
Library routines from the Python standard library that the engines call
(`re.findall`, `json.loads`, `hashlib.sha256`, UTF-8 decoding) are modelled as
parameters collected in `EngineOps`: every theorem below is proved for all
possible behaviours of those routines, which subsumes the actual ones.
All repository-specific control flow and arithmetic is translated line by
line from the source files named in each definition.
-/

namespace VeritasAI

/-- Clamp used by the engine: max(0.0, min(1.0, s)). -/
def clamp01 (s : Rat) : Rat := max 0 (min 1 s)

/-- Count of non-overlapping occurrences of a literal character sequence,
modelling the Python expressions needle in hay and hay.count(needle). -/
def countOccs (needle hay : List Char) : Nat :=
  if hne : needle.length = 0 then hay.length + 1
  else
    match hay with
    | [] => 0
    | c :: t =>
      if needle.isPrefixOf (c :: t) then
        1 + countOccs needle ((c :: t).drop needle.length)
      else
        countOccs needle t
termination_by hay.length
decreasing_by
  · simp [List.length_drop]; omega
  · simp

/-- Python membership test needle in hay for strings. -/
def strContains (hay needle : String) : Bool :=
  0 < countOccs needle.data hay.data

/-- Python str.lower, restricted to character-wise lowering. -/
def strLower (s : String) : String := s.map Char.toLower

/-- Python len(text.split()): number of maximal whitespace-free chunks. -/
def wordCount (s : String) : Nat :=
  ((s.split Char.isWhitespace).filter (fun w => w ≠ "")).length

/-- Outcome of json.loads on the decoded content, as far as the engine
inspects it: failure, a non-dict top level, or a dict with its key list. -/
inductive JsonParseResult where
  | parseError : JsonParseResult
  | nonDict : JsonParseResult
  | dict : List String → JsonParseResult

/-- Python standard-library routines the verification engine calls, taken as
parameters: the theorems hold for every behaviour of these routines. -/
structure EngineOps where
  /-- len(re.findall(pattern, text, re.IGNORECASE ...)) for a pattern. -/
  findallCount : String → String → Nat
  /-- json.loads on a decoded string, abstracted to what the engine reads. -/
  jsonParse : String → JsonParseResult
  /-- content.decode(utf-8) with errors ignored; total and deterministic. -/
  decodeUtf8Ignore : List Nat → String
  /-- hashlib.sha256(content).hexdigest()[:16]. -/
  sha256hex16 : List Nat → String

/-- Metadata dictionary as the verification engine reads it: the set of
top-level keys and, when present, the exif sub-dictionary of string values. -/
structure VerifMeta where
  keys : List String
  exif : Option (List (String × String))

/-- Result fields of a per-content-type verification handler. -/
structure HandlerResult where
  verification_score : Rat
  confidence : Rat
  findings : List String

/-- Misinformation patterns of _verify_text_content: regex, label, impact. -/
def misinformationPatterns : List (String × String × Rat) :=
  [("\\b(breaking news|urgent|shocking)\\b", "sensational_language", 0.3),
   ("\\b(unconfirmed|alleged|reportedly)\\b", "uncertain_claims", 0.2),
   ("\\b(expert says|scientists agree)\\b", "vague_authority", 0.25),
   ("\\b(99%|all|none|everyone|nobody)\\b", "absolute_claims", 0.35)]

/-- One iteration of the pattern loop in _verify_text_content: on a match,
append a finding and subtract score_impact * min(len(matches), 5) / 5. -/
def patternStep5 (ops : EngineOps) (text : String) (acc : Rat × List String)
    (p : String × String × Rat) : Rat × List String :=
  let m := ops.findallCount p.1 text
  if 0 < m then
    (acc.1 - p.2.2 * ((min m 5 : Nat) : Rat) / 5, acc.2 ++ [p.2.1])
  else
    acc

/-- ContentVerificationEngine._verify_text_content (engine.py lines 94-149). -/
def verifyTextContent (ops : EngineOps) (content : List Nat) (_meta : VerifMeta) :
    HandlerResult :=
  let text := ops.decodeUtf8Ignore content
  let sf := misinformationPatterns.foldl (patternStep5 ops text) ((0.85 : Rat), [])
  let wc := wordCount text
  let fc : List String × Rat :=
    if wc < 50 then (sf.2 ++ ["insufficient_content"], (0.5 : Rat))
    else if 10000 < wc then (sf.2 ++ ["excessive_content"], (0.9 : Rat))
    else (sf.2, (0.9 : Rat))
  { verification_score := clamp01 sf.1,
    confidence := max 0.1 fc.2,
    findings := fc.1 }

/-- Suspicious patterns of _verify_html_content: regex, label, impact. -/
def suspiciousPatterns : List (String × String × Rat) :=
  [("<script[^>]*>.*?</script>", "embedded_scripts", 0.2),
   ("on\\w+\\s*=", "inline_event_handlers", 0.15),
   ("<iframe[^>]*>", "embedded_iframes", 0.25),
   ("<meta[^>]*refresh[^>]*>", "auto_refresh", 0.3)]

/-- One iteration of the pattern loop in _verify_html_content: on a match,
append a finding and subtract score_impact * min(len(matches), 3) / 3. -/
def patternStep3 (ops : EngineOps) (text : String) (acc : Rat × List String)
    (p : String × String × Rat) : Rat × List String :=
  let m := ops.findallCount p.1 text
  if 0 < m then
    (acc.1 - p.2.2 * ((min m 3 : Nat) : Rat) / 3, acc.2 ++ [p.2.1])
  else
    acc

/-- ContentVerificationEngine._verify_html_content (engine.py lines 151-201). -/
def verifyHtmlContent (ops : EngineOps) (content : List Nat) (_meta : VerifMeta) :
    HandlerResult :=
  let htmlText := ops.decodeUtf8Ignore content
  let sf := suspiciousPatterns.foldl (patternStep3 ops htmlText) ((0.8 : Rat), [])
  let commentCount := countOccs "<!--".data htmlText.data
  let sf2 : Rat × List String :=
    if strContains htmlText "<!--" ∧ strContains htmlText "-->" ∧ 10 < commentCount then
      (sf.1 - 0.1, sf.2 ++ ["excessive_comments"])
    else sf
  { verification_score := clamp01 sf2.1,
    confidence := 0.85,
    findings := sf2.2 }

/-- ContentVerificationEngine._verify_image_content (engine.py lines 203-241). -/
def verifyImageContent (_ops : EngineOps) (_content : List Nat) (meta : VerifMeta) :
    HandlerResult :=
  let editingFinding : List String :=
    if meta.keys ≠ [] then
      match meta.exif with
      | some exifData =>
        match exifData.lookup "Software" with
        | some software =>
          if (["photoshop", "gimp", "paint"].any
                (fun tool => strContains (strLower software) tool)) then
            ["editing_software"]
          else []
        | none => []
      | none => []
    else []
  { verification_score := 0.75,
    confidence := 0.8,
    findings := editingFinding ++ ["image_verification"] }

/-- ContentVerificationEngine._verify_video_content (engine.py lines 243-263). -/
def verifyVideoContent (_ops : EngineOps) (_content : List Nat) (_meta : VerifMeta) :
    HandlerResult :=
  { verification_score := 0.7,
    confidence := 0.75,
    findings := ["video_content"] }

/-- ContentVerificationEngine._verify_json_content (engine.py lines 265-311). -/
def verifyJsonContent (ops : EngineOps) (content : List Nat) (_meta : VerifMeta) :
    HandlerResult :=
  match ops.jsonParse (ops.decodeUtf8Ignore content) with
  | JsonParseResult.parseError =>
    { verification_score := clamp01 0.1, confidence := 0.3, findings := ["invalid_json"] }
  | JsonParseResult.nonDict =>
    { verification_score := clamp01 0.9, confidence := 0.95, findings := [] }
  | JsonParseResult.dict keys =>
    let s1 : Rat × List String :=
      if keys.contains "source" ∨ keys.contains "origin" then
        ((0.9 : Rat) + 0.1, ["source_attribution"])
      else ((0.9 : Rat), [])
    let s2 : Rat × List String :=
      if ["timestamp", "created", "date", "time"].any (fun f => keys.contains f) then
        (s1.1 + 0.05, s1.2 ++ ["temporal_data"])
      else s1
    { verification_score := clamp01 s2.1, confidence := 0.95, findings := s2.2 }

/-- ContentVerificationEngine._generate_assessment (engine.py lines 398-409). -/
def generateAssessment (score : Rat) : String :=
  if (0.9 : Rat) ≤ score then "Highly Authentic"
  else if (0.7 : Rat) ≤ score then "Likely Authentic"
  else if (0.5 : Rat) ≤ score then "Uncertain"
  else if (0.3 : Rat) ≤ score then "Likely Misinformation"
  else "Highly Suspect"

/-- Dispatch of verify_content on the supported_content_types dict keys,
falling through to the unsupported-content-type branch. -/
def verifyContentCore (ops : EngineOps) (content : List Nat) (contentType : String)
    (meta : VerifMeta) : HandlerResult :=
  if contentType = "text/plain" then verifyTextContent ops content meta
  else if contentType = "text/html" then verifyHtmlContent ops content meta
  else if contentType = "image/jpeg" ∨ contentType = "image/png" then
    verifyImageContent ops content meta
  else if contentType = "video/mp4" then verifyVideoContent ops content meta
  else if contentType = "application/json" then verifyJsonContent ops content meta
  else
    { verification_score := 0.1, confidence := 0.1,
      findings := ["unsupported_content_type"] }

/-- Result record of ContentVerificationEngine.verify_content; fields that no
claim mentions and that feed into nothing else (metadata_analysis,
cross_references, anomalies, recommendations) are omitted; the third-party
verification result is kept opaquely since it never feeds into scoring. -/
structure VerifyResult where
  content_id : String
  timestamp : String
  content_type : String
  verification_score : Rat
  confidence : Rat
  findings : List String
  third_party_verification : Option String
  assessment : String

/-- ContentVerificationEngine.verify_content (engine.py lines 32-92).
now is the value of datetime.utcnow().isoformat(); tpService models
self.third_party_service together with the network behaviour of
verify_text_claim (None when the import failed). -/
def verifyContent (ops : EngineOps) (now : String) (tpService : Option (String → String))
    (content : List Nat) (contentType : String) (meta : VerifMeta) : VerifyResult :=
  let core := verifyContentCore ops content contentType meta
  let text := ops.decodeUtf8Ignore content
  let tp : Option String :=
    match tpService with
    | some svc =>
      if (contentType = "text/plain" ∨ contentType = "text/html" ∨
          contentType = "application/json") ∧ 10 < text.trim.length then
        some (svc (text.take 500))
      else none
    | none => none
  { content_id := ops.sha256hex16 content,
    timestamp := now,
    content_type := contentType,
    verification_score := core.verification_score,
    confidence := core.confidence,
    findings := core.findings,
    third_party_verification := tp,
    assessment := generateAssessment core.verification_score }

/-! Deepfake detection engine (src/src/ai/deepfake/detection.py). -/

/-- Metadata dictionary as the deepfake engine reads it: the exif
sub-dictionary of string values and numeric fields, plus the names of any
other keys (so that the Python truthiness test if metadata: is preserved). -/
structure DeepfakeMeta where
  exif : Option (List (String × String))
  width : Option Rat
  height : Option Rat
  duration : Option Rat
  bitrate : Option Rat
  otherKeys : List String

/-- Python truthiness of the metadata dict: empty iff no keys at all. -/
def DeepfakeMeta.isEmpty (m : DeepfakeMeta) : Bool :=
  m.exif.isNone && m.width.isNone && m.height.isNone &&
    m.duration.isNone && m.bitrate.isNone && m.otherKeys.isEmpty

/-- A deepfake indicator as far as scoring reads it: its type label and its
confidence contribution. -/
structure Indicator where
  kind : String
  confidence : Rat

/-- DeepfakeDetectionEngine._analyze_exif_consistency (detection.py 156-196). -/
def analyzeExifConsistency (exifData : List (String × String)) : List Indicator :=
  let cameraFields := ["Make", "Model", "Software"]
  let missingCameraData := cameraFields.filter (fun f => (exifData.lookup f).isNone)
  let cameraInds : List Indicator :=
    if missingCameraData.length = cameraFields.length then
      [{ kind := "missing_camera_data", confidence := 0.4 }]
    else
      match exifData.lookup "Software" with
      | some software =>
        let sw := strLower software
        if (["dall-e", "midjourney", "stable diffusion", "dreamstudio"].any
              (fun tool => strContains sw tool)) then
          [{ kind := "ai_generation_tool", confidence := 0.8 }]
        else []
      | none => []
  let timeFields := ["DateTime", "DateTimeOriginal", "DateTimeDigitized"]
  let availableTimeFields := timeFields.filter (fun f => (exifData.lookup f).isSome)
  cameraInds ++
    (if availableTimeFields.length = 0 then
      [{ kind := "missing_timestamps", confidence := 0.3 }]
    else [])

/-- Result fields of a per-content-type deepfake detection handler. -/
structure DetectResult where
  deepfake_probability : Rat
  confidence : Rat
  indicators : List Indicator
  processing_time : Rat

/-- Indicators collected by _detect_image_deepfake from the metadata. -/
def imageIndicators (meta : DeepfakeMeta) : List Indicator :=
  if meta.isEmpty then []
  else
    (match meta.exif with
     | some exifData => analyzeExifConsistency exifData
     | none => []) ++
    (match meta.width, meta.height with
     | some w, some h =>
       if (4000 : Rat) < w ∨ (4000 : Rat) < h then
         [{ kind := "high_resolution", confidence := 0.3 }]
       else []
     | _, _ => [])

/-- DeepfakeDetectionEngine._detect_image_deepfake (detection.py 69-112). -/
def detectImageDeepfake (_content : List Nat) (meta : DeepfakeMeta) : DetectResult :=
  let indicatorsFound := imageIndicators meta
  let indicatorImpact := (indicatorsFound.map (fun i => i.confidence)).sum
  { deepfake_probability := min 0.95 ((0.3 : Rat) + indicatorImpact),
    confidence := min 0.9 ((0.5 : Rat) + (indicatorsFound.length : Rat) * 0.1),
    indicators := indicatorsFound,
    processing_time := 0.1 }

/-- Indicators collected by _detect_video_deepfake from the metadata. -/
def videoIndicators (meta : DeepfakeMeta) : List Indicator :=
  if meta.isEmpty then []
  else
    (match meta.duration with
     | some d => if (300 : Rat) < d then
         [{ kind := "long_duration", confidence := 0.1 }]
       else []
     | none => []) ++
    (match meta.bitrate with
     | some b => if (10000000 : Rat) < b then
         [{ kind := "high_bitrate", confidence := -0.1 }]
       else []
     | none => [])

/-- DeepfakeDetectionEngine._detect_video_deepfake (detection.py 114-154). -/
def detectVideoDeepfake (_content : List Nat) (meta : DeepfakeMeta) : DetectResult :=
  let indicatorsFound := videoIndicators meta
  let indicatorImpact := (indicatorsFound.map (fun i => max 0 i.confidence)).sum
  { deepfake_probability := min 0.95 (max 0.05 ((0.4 : Rat) + indicatorImpact)),
    confidence := 0.7,
    indicators := indicatorsFound,
    processing_time := 0.5 }

/-- DeepfakeDetectionEngine._generate_assessment (detection.py 198-207). -/
def deepfakeAssessment (probability : Rat) : String :=
  if probability < (0.2 : Rat) then "Likely Authentic"
  else if probability < (0.5 : Rat) then "Possibly Authentic"
  else if probability < (0.8 : Rat) then "Suspicious"
  else "Likely Deepfake"

/-- Result record of DeepfakeDetectionEngine.detect_deepfake. -/
structure DeepfakeResult where
  analysis_id : String
  timestamp : String
  content_type : String
  deepfake_probability : Rat
  confidence : Rat
  indicators : List Indicator
  processing_time : Rat
  assessment : String

/-- DeepfakeDetectionEngine.detect_deepfake (detection.py lines 19-67);
hash16 models hashlib.sha256(content).hexdigest()[:16] and now models
datetime.utcnow().isoformat(). -/
def detectDeepfake (hash16 : List Nat → String) (now : String) (content : List Nat)
    (contentType : String) (meta : DeepfakeMeta) : DeepfakeResult :=
  let core : DetectResult :=
    if contentType = "image" then detectImageDeepfake content meta
    else if contentType = "video" then detectVideoDeepfake content meta
    else
      { deepfake_probability := 0.1, confidence := 0.2,
        indicators := [{ kind := "unsupported_format", confidence := 0 }],
        processing_time := 0 }
  { analysis_id := hash16 content,
    timestamp := now,
    content_type := contentType,
    deepfake_probability := core.deepfake_probability,
    confidence := core.confidence,
    indicators := core.indicators,
    processing_time := core.processing_time,
    assessment := deepfakeAssessment core.deepfake_probability }

/-! Third-party verification service (src/src/ai/third_party/service.py). -/

/-- Per-service configuration entry of ThirdPartyVerificationService. -/
structure ServiceConfig where
  api_key : Option String
  base_url : String
  enabled : Bool

/-- The response dictionary a per-service verifier returns, as far as the
claims read it. -/
structure FactCheckResponse where
  verified : Bool
  rating : String
  confidence : Rat
  explanation : String
  source_url : String
  last_updated : String

/-- Outcome of the outbound HTTP call (requests.post, raise_for_status and
response.json() together): either a parsed JSON response or an exception
carrying its message string. -/
inductive HttpOutcome where
  | success : FactCheckResponse → HttpOutcome
  | failure : String → HttpOutcome

/-- ThirdPartyVerificationService._verify_with_snopes (service.py 91-130):
on any exception the hardcoded simulated response is returned. -/
def verifyWithSnopes (outcome : HttpOutcome) (_claim : String)
    (_config : ServiceConfig) (now : String) : FactCheckResponse :=
  match outcome with
  | HttpOutcome.success r => r
  | HttpOutcome.failure _ =>
    { verified := true,
      rating := "mostly_true",
      confidence := 0.85,
      explanation := "This claim has been verified by Snopes fact-checkers.",
      source_url := "https://www.snopes.com/fake-claim-example",
      last_updated := now }

/-- ThirdPartyVerificationService._verify_with_factcheck_org (service.py
132-170): on any exception the hardcoded simulated response is returned. -/
def verifyWithFactcheckOrg (outcome : HttpOutcome) (_claim : String)
    (_config : ServiceConfig) (now : String) : FactCheckResponse :=
  match outcome with
  | HttpOutcome.success r => r
  | HttpOutcome.failure _ =>
    { verified := true,
      rating := "true",
      confidence := 0.92,
      explanation := "FactCheck.org has verified this statement as true.",
      source_url := "https://www.factcheck.org/statement/fake-statement-example",
      last_updated := now }

/-- ThirdPartyVerificationService._verify_with_politifact (service.py
172-210): on any exception the hardcoded simulated response is returned. -/
def verifyWithPolitifact (outcome : HttpOutcome) (_claim : String)
    (_config : ServiceConfig) (now : String) : FactCheckResponse :=
  match outcome with
  | HttpOutcome.success r => r
  | HttpOutcome.failure _ =>
    { verified := true,
      rating := "mostly_true",
      confidence := 0.78,
      explanation := "PolitiFact rates this claim as mostly true.",
      source_url := "https://www.politifact.com/fake-claim-example",
      last_updated := now }

/-! ML model manager (src/src/ai/ml/manager.py). -/

/-- One record of the model_performance log; the result payload is kept
opaque as a string and the timestamp is the utcnow() value at append time. -/
structure PerfRecord where
  model_version : String
  timestamp : String
  result : String
  kind : String
deriving DecidableEq

/-- Shared tail of _track_prediction and _track_training: append the record,
then keep only the last 1000 records when the length exceeds 1000
(manager.py lines 194-240). -/
def trackAppend (log : List PerfRecord) (r : PerfRecord) : List PerfRecord :=
  let l := log ++ [r]
  if 1000 < l.length then l.drop (l.length - 1000) else l

/-- A performance-tracking event: a predict or train_model call that reached
_track_prediction or _track_training for the given model type. -/
structure TrackEvent where
  model_version : String
  timestamp : String
  result : String
  isTraining : Bool

/-- The record a tracking event appends (type field prediction/training). -/
def TrackEvent.toRecord (e : TrackEvent) : PerfRecord :=
  { model_version := e.model_version,
    timestamp := e.timestamp,
    result := e.result,
    kind := if e.isTraining then "training" else "prediction" }

/-- Effect of one tracked predict/train_model call on the per-model-type
performance log (model_performance[model_type], initialised to [] on first
use). -/
def applyTrackEvent (log : List PerfRecord) (e : TrackEvent) : List PerfRecord :=
  trackAppend log e.toRecord

/-- State of ModelManager as set_active_model reads and writes it; model
objects are opaque (type parameter α) and the dicts are association lists in
insertion order. -/
structure ManagerState (α : Type) where
  models : List (String × List (String × α))
  active_models : List (String × String)

/-- Python dict assignment d[k] = v on an association list: overwrite in
place when the key exists, append otherwise. -/
def dictInsert {β : Type} (l : List (String × β)) (k : String) (v : β) :
    List (String × β) :=
  if (l.lookup k).isSome then
    l.map (fun p => if p.1 = k then (k, v) else p)
  else
    l ++ [(k, v)]

/-- ModelManager.set_active_model (manager.py lines 47-71). -/
def setActiveModel {α : Type} (st : ManagerState α) (modelType modelVersion : String) :
    Bool × ManagerState α :=
  match st.models.lookup modelType with
  | none => (false, st)
  | some versions =>
    match versions.lookup modelVersion with
    | none => (false, st)
    | some _ =>
      (true, { st with active_models := dictInsert st.active_models modelType modelVersion })

/-! User password hashing (src/src/models/user.py). -/

/-- User.set_password (user.py lines 23-27): hashed_password is the 32-char
hex salt concatenated with the hex PBKDF2 digest. pbkdf2hex models
hashlib.pbkdf2_hmac(sha256, password, salt, 100000).hex() as a function of
the password and salt strings; Python strings are char lists here so that
slicing is List.take / List.drop. -/
def setPassword (pbkdf2hex : List Char → List Char → List Char)
    (salt password : List Char) : List Char :=
  salt ++ pbkdf2hex password salt

/-- User.check_password (user.py lines 29-34): split the stored value at
position 32 into salt and digest, recompute and compare. -/
def checkPassword (pbkdf2hex : List Char → List Char → List Char)
    (hashedPassword password : List Char) : Bool :=
  let salt := hashedPassword.take 32
  let storedHash := hashedPassword.drop 32
  pbkdf2hex password salt == storedHash

/-! Cache service (src/src/cache/cache_service.py, redis_client.py). -/

/-- The Redis key-value store: a reachability flag (false models the
connection errors every redis_client wrapper catches) and the stored
string entries. Expiry is not modelled; the round-trip claim presupposes
the store returns the stored string. -/
structure Store where
  available : Bool
  entries : List (String × String)

/-- redis_client.set_cache: setex on success, False on connection error. -/
def setCacheKV (st : Store) (key value : String) : Bool × Store :=
  if st.available then
    (true, { st with entries := dictInsert st.entries key value })
  else
    (false, st)

/-- redis_client.get_cache: the stored string, or None on miss or error. -/
def getCacheKV (st : Store) (key : String) : Option String :=
  if st.available then st.entries.lookup key else none

/-- cache_service.cache_set (cache_service.py lines 9-27): JSON-serialize
then store; dumps models json.dumps, returning none when serialization
raises. -/
def cacheSet {α : Type} (dumps : α → Option String) (st : Store) (key : String)
    (value : α) : Bool × Store :=
  match dumps value with
  | some s => setCacheKV st key s
  | none => (false, st)

/-- cache_service.cache_get (cache_service.py lines 30-47): fetch then
JSON-deserialize; loads models json.loads, returning none when it raises
(the except branch returns None). -/
def cacheGet {α : Type} (loads : String → Option α) (st : Store) (key : String) :
    Option α :=
  match getCacheKV st key with
  | some s => loads s
  | none => none

/-! Content API routes (src/src/api/content.py). -/

/-- How the body of a content route terminated: normally, with a
requests.RequestException (message str(e)), or with any other exception. -/
inductive RouteOutcome where
  | ok : RouteOutcome
  | requestError : String → RouteOutcome
  | otherError : String → RouteOutcome

/-- An HTTPException raised at the route layer. -/
structure HttpError where
  status_code : Nat
  detail : String
deriving DecidableEq

/-- Error translation of upload_content (content.py lines 20-65): a single
broad except Exception clause maps every exception, including
requests.RequestException, to HTTP 500. -/
def uploadContentError (outcome : RouteOutcome) : Option HttpError :=
  match outcome with
  | RouteOutcome.ok => none
  | RouteOutcome.requestError msg =>
    some { status_code := 500, detail := "Error uploading file: " ++ msg }
  | RouteOutcome.otherError msg =>
    some { status_code := 500, detail := "Error uploading file: " ++ msg }

/-- Error translation of upload_content_from_url (content.py lines 68-124):
requests.RequestException is caught first and mapped to HTTP 400; every
other exception is mapped to HTTP 500. -/
def uploadContentFromUrlError (outcome : RouteOutcome) : Option HttpError :=
  match outcome with
  | RouteOutcome.ok => none
  | RouteOutcome.requestError msg =>
    some { status_code := 400, detail := "Error downloading content from URL: " ++ msg }
  | RouteOutcome.otherError msg =>
    some { status_code := 500, detail := "Error processing content: " ++ msg }

/-! Theorems. -/

theorem clamp01_nonneg (s : Rat) : 0 ≤ clamp01 s := le_max_left 0 _

theorem clamp01_le_one (s : Rat) : clamp01 s ≤ 1 :=
  max_le (by norm_num) (min_le_left 1 s)

theorem verifyContentCore_score_bounds (ops : EngineOps) (content : List Nat)
    (contentType : String) (meta : VerifMeta) :
    0 ≤ (verifyContentCore ops content contentType meta).verification_score ∧
      (verifyContentCore ops content contentType meta).verification_score ≤ 1 := by
  unfold verifyContentCore
  split_ifs with h1 h2 h3 h4 h5
  · exact ⟨clamp01_nonneg _, clamp01_le_one _⟩
  · exact ⟨clamp01_nonneg _, clamp01_le_one _⟩
  · refine ⟨?_, ?_⟩ <;> simp [verifyImageContent] <;> norm_num
  · refine ⟨?_, ?_⟩ <;> simp [verifyVideoContent] <;> norm_num
  · unfold verifyJsonContent
    rcases ops.jsonParse (ops.decodeUtf8Ignore content) with _ | _ | keys
    · exact ⟨clamp01_nonneg _, clamp01_le_one _⟩
    · exact ⟨clamp01_nonneg _, clamp01_le_one _⟩
    · exact ⟨clamp01_nonneg _, clamp01_le_one _⟩
  · exact ⟨by norm_num, by norm_num⟩

/-- C1: for every content byte string, every content_type (supported or
not), and every metadata dictionary, ContentVerificationEngine.verify_content
returns a result whose verification_score lies in the closed interval
[0, 1]; proved for every behaviour of the standard-library routines the
engine calls. -/
theorem verifyContent_score_in_unit_interval (ops : EngineOps) (now : String)
    (tpService : Option (String → String)) (content : List Nat)
    (contentType : String) (meta : VerifMeta) :
    0 ≤ (verifyContent ops now tpService content contentType meta).verification_score ∧
      (verifyContent ops now tpService content contentType meta).verification_score ≤ 1 :=
  verifyContentCore_score_bounds ops content contentType meta

theorem generateAssessment_iff (s : Rat) :
    (generateAssessment s = "Highly Authentic" ↔ (0.9 : Rat) ≤ s) ∧
    (generateAssessment s = "Likely Authentic" ↔ ((0.7 : Rat) ≤ s ∧ s < 0.9)) ∧
    (generateAssessment s = "Uncertain" ↔ ((0.5 : Rat) ≤ s ∧ s < 0.7)) ∧
    (generateAssessment s = "Likely Misinformation" ↔ ((0.3 : Rat) ≤ s ∧ s < 0.5)) ∧
    (generateAssessment s = "Highly Suspect" ↔ s < 0.3) := by
  unfold generateAssessment
  split_ifs with h1 h2 h3 h4 <;> push_neg at * <;>
    refine ⟨?_, ?_, ?_, ?_, ?_⟩ <;>
    first
      | exact iff_of_true rfl (by first
          | assumption
          | exact ⟨by linarith, by linarith⟩)
      | exact iff_of_false (by decide) (by first
          | (rintro ⟨ha, hb⟩; linarith)
          | (intro hb; linarith))

/-- C4: the assessment field of every verify_content result is exactly one
of five fixed labels, determined by fixed thresholds on the final
verification score: Highly Authentic iff score is at least 0.9, Likely
Authentic iff it is in [0.7, 0.9), Uncertain iff in [0.5, 0.7), Likely
Misinformation iff in [0.3, 0.5), Highly Suspect iff below 0.3. -/
theorem verifyContent_assessment_thresholds (ops : EngineOps) (now : String)
    (tpService : Option (String → String)) (content : List Nat)
    (contentType : String) (meta : VerifMeta) :
    ((verifyContent ops now tpService content contentType meta).assessment =
        "Highly Authentic" ↔
      (0.9 : Rat) ≤ (verifyContent ops now tpService content contentType meta).verification_score) ∧
    ((verifyContent ops now tpService content contentType meta).assessment =
        "Likely Authentic" ↔
      ((0.7 : Rat) ≤ (verifyContent ops now tpService content contentType meta).verification_score ∧
        (verifyContent ops now tpService content contentType meta).verification_score < 0.9)) ∧
    ((verifyContent ops now tpService content contentType meta).assessment = "Uncertain" ↔
      ((0.5 : Rat) ≤ (verifyContent ops now tpService content contentType meta).verification_score ∧
        (verifyContent ops now tpService content contentType meta).verification_score < 0.7)) ∧
    ((verifyContent ops now tpService content contentType meta).assessment =
        "Likely Misinformation" ↔
      ((0.3 : Rat) ≤ (verifyContent ops now tpService content contentType meta).verification_score ∧
        (verifyContent ops now tpService content contentType meta).verification_score < 0.5)) ∧
    ((verifyContent ops now tpService content contentType meta).assessment =
        "Highly Suspect" ↔
      (verifyContent ops now tpService content contentType meta).verification_score < 0.3) :=
  generateAssessment_iff
    ((verifyContent ops now tpService content contentType meta).verification_score)

/-- C10: verify_content is deterministic in its scoring outputs: two calls
with equal content bytes, equal content_type and equal metadata give equal
verification_score and equal assessment, even when the wall clock and the
third-party network behaviour differ between the calls. -/
theorem verifyContent_deterministic (ops : EngineOps) (now1 now2 : String)
    (tp1 tp2 : Option (String → String)) (content : List Nat)
    (contentType : String) (meta : VerifMeta) :
    (verifyContent ops now1 tp1 content contentType meta).verification_score =
      (verifyContent ops now2 tp2 content contentType meta).verification_score ∧
    (verifyContent ops now1 tp1 content contentType meta).assessment =
      (verifyContent ops now2 tp2 content contentType meta).assessment :=
  ⟨rfl, rfl⟩

/-- C3: for every claim string and service configuration, whenever the
outbound HTTP request raised an exception, each per-service verifier
returns the hardcoded response whose verified field is True together with
its fixed rating and confidence (Snopes: mostly_true at 0.85,
FactCheck.org: true at 0.92, PolitiFact: mostly_true at 0.78), regardless
of the exception. -/
theorem thirdParty_fabricated_verified_on_exception (claim msg now : String)
    (config : ServiceConfig) :
    ((verifyWithSnopes (HttpOutcome.failure msg) claim config now).verified = true ∧
     (verifyWithSnopes (HttpOutcome.failure msg) claim config now).rating = "mostly_true" ∧
     (verifyWithSnopes (HttpOutcome.failure msg) claim config now).confidence = 0.85) ∧
    ((verifyWithFactcheckOrg (HttpOutcome.failure msg) claim config now).verified = true ∧
     (verifyWithFactcheckOrg (HttpOutcome.failure msg) claim config now).rating = "true" ∧
     (verifyWithFactcheckOrg (HttpOutcome.failure msg) claim config now).confidence = 0.92) ∧
    ((verifyWithPolitifact (HttpOutcome.failure msg) claim config now).verified = true ∧
     (verifyWithPolitifact (HttpOutcome.failure msg) claim config now).rating = "mostly_true" ∧
     (verifyWithPolitifact (HttpOutcome.failure msg) claim config now).confidence = 0.78) :=
  ⟨⟨rfl, rfl, rfl⟩, ⟨rfl, rfl, rfl⟩, ⟨rfl, rfl, rfl⟩⟩

theorem analyzeExifConsistency_impact_nonneg (e : List (String × String)) :
    0 ≤ ((analyzeExifConsistency e).map (fun i => i.confidence)).sum := by
  unfold analyzeExifConsistency
  simp only [List.map_append, List.sum_append]
  refine add_nonneg ?_ ?_
  · split_ifs with h
    · norm_num
    · cases hsw : e.lookup "Software" with
      | none => simp
      | some sw => dsimp only; split_ifs <;> simp; norm_num
  · split_ifs <;> simp; norm_num

theorem imageIndicators_impact_nonneg (meta : DeepfakeMeta) :
    0 ≤ ((imageIndicators meta).map (fun i => i.confidence)).sum := by
  unfold imageIndicators
  split_ifs with h
  · simp
  · simp only [List.map_append, List.sum_append]
    refine add_nonneg ?_ ?_
    · cases hex : meta.exif with
      | none => simp
      | some e => exact analyzeExifConsistency_impact_nonneg e
    · cases hw : meta.width <;> cases hh : meta.height <;> (try dsimp only) <;>
        first
          | (split_ifs <;> simp <;> norm_num)
          | simp

theorem detectImageDeepfake_prob_bounds (content : List Nat) (meta : DeepfakeMeta) :
    0 ≤ (detectImageDeepfake content meta).deepfake_probability ∧
      (detectImageDeepfake content meta).deepfake_probability ≤ 1 := by
  have h := imageIndicators_impact_nonneg meta
  unfold detectImageDeepfake
  dsimp only
  constructor
  · exact le_min (by norm_num) (by linarith)
  · exact le_trans (min_le_left _ _) (by norm_num)

theorem detectVideoDeepfake_prob_bounds (content : List Nat) (meta : DeepfakeMeta) :
    0 ≤ (detectVideoDeepfake content meta).deepfake_probability ∧
      (detectVideoDeepfake content meta).deepfake_probability ≤ 1 := by
  unfold detectVideoDeepfake
  dsimp only
  constructor
  · exact le_min (by norm_num) (le_trans (by norm_num) (le_max_left _ _))
  · exact le_trans (min_le_left _ _) (by norm_num)

/-- C2: for every content byte string, every content_type string and every
metadata dictionary, DeepfakeDetectionEngine.detect_deepfake returns a
result whose deepfake_probability lies in the closed interval [0, 1]. -/
theorem detectDeepfake_probability_in_unit_interval (hash16 : List Nat → String)
    (now : String) (content : List Nat) (contentType : String)
    (meta : DeepfakeMeta) :
    0 ≤ (detectDeepfake hash16 now content contentType meta).deepfake_probability ∧
      (detectDeepfake hash16 now content contentType meta).deepfake_probability ≤ 1 := by
  unfold detectDeepfake
  dsimp only
  split_ifs
  · exact detectImageDeepfake_prob_bounds content meta
  · exact detectVideoDeepfake_prob_bounds content meta
  · exact ⟨by norm_num, by norm_num⟩

theorem foldl_trackAppend_eq_drop (rs : List PerfRecord) :
    rs.foldl trackAppend [] = rs.drop (rs.length - 1000) := by
  induction rs using List.reverseRecOn with
  | nil => simp
  | append_singleton l a ih =>
    rw [List.foldl_append]
    simp only [List.foldl_cons, List.foldl_nil]
    rw [ih]
    simp only [trackAppend]
    by_cases hlen : l.length < 1000
    · have hd0 : l.length - 1000 = 0 := by omega
      rw [hd0, List.drop_zero]
      have hcond : ¬ 1000 < (l ++ [a]).length := by
        rw [List.length_append]
        simp only [List.length_cons, List.length_nil]
        omega
      rw [if_neg hcond]
      have hd1 : (l ++ [a]).length - 1000 = 0 := by
        rw [List.length_append]
        simp only [List.length_cons, List.length_nil]
        omega
      rw [hd1, List.drop_zero]
    · push_neg at hlen
      have hdlen : (l.drop (l.length - 1000)).length = 1000 := by
        rw [List.length_drop]; omega
      have hcond : 1000 < (l.drop (l.length - 1000) ++ [a]).length := by
        rw [List.length_append, hdlen]
        simp
      rw [if_pos hcond]
      have hL : (l.drop (l.length - 1000) ++ [a]).length - 1000 = 1 := by
        rw [List.length_append, hdlen]
        simp
      rw [hL]
      rw [List.drop_append_of_le_length (by rw [hdlen]; omega)]
      rw [List.drop_drop]
      have hR : (l ++ [a]).length - 1000 = l.length + 1 - 1000 := by
        rw [List.length_append]
        simp only [List.length_cons, List.length_nil]
      rw [hR]
      rw [List.drop_append_of_le_length (by omega)]
      have heq : l.length - 1000 + 1 = l.length + 1 - 1000 := by omega
      rw [heq]

/-- C5: for every model type, after every sequence of tracked predict and
train_model calls, the per-type performance log holds at most 1000 records,
and it is exactly the most recent 1000 appended records in order (all of
them when fewer than 1000 have been appended). -/
theorem modelPerformance_log_truncation (es : List TrackEvent) :
    (es.foldl applyTrackEvent []).length ≤ 1000 ∧
      es.foldl applyTrackEvent [] =
        (es.map TrackEvent.toRecord).drop (es.length - 1000) := by
  have h1 : es.foldl applyTrackEvent [] =
      (es.map TrackEvent.toRecord).foldl trackAppend [] := by
    rw [List.foldl_map]
    rfl
  have h2 := foldl_trackAppend_eq_drop (es.map TrackEvent.toRecord)
  refine ⟨?_, ?_⟩
  · rw [h1, h2, List.length_drop]
    omega
  · rw [h1, h2]
    simp

/-- C6: for every deterministic keyed-hash function, every 32-character salt
(the length secrets.token_hex(16) always produces) and every password,
check_password accepts the value set_password stored. -/
theorem setPassword_checkPassword_roundtrip
    (pbkdf2hex : List Char → List Char → List Char) (salt password : List Char)
    (hsalt : salt.length = 32) :
    checkPassword pbkdf2hex (setPassword pbkdf2hex salt password) password = true := by
  unfold checkPassword setPassword
  rw [show (32 : Nat) = salt.length from hsalt.symm, List.take_left, List.drop_left]
  simp

theorem setPassword_checkPassword_roundtrip_witness :
    (List.replicate 32 'a').length = 32 ∧
      checkPassword (fun _ _ => ['h', 'x'])
        (setPassword (fun _ _ => ['h', 'x']) (List.replicate 32 'a') ['p', 'w'])
        ['p', 'w'] = true :=
  ⟨by decide,
   setPassword_checkPassword_roundtrip (fun _ _ => ['h', 'x'])
     (List.replicate 32 'a') ['p', 'w'] (by decide)⟩

theorem lookup_map_overwrite {β : Type} (l : List (String × β)) (k : String) (v : β)
    (h : (l.lookup k).isSome) :
    (l.map (fun p => if p.1 = k then (k, v) else p)).lookup k = some v := by
  induction l with
  | nil => simp at h
  | cons p t ih =>
    obtain ⟨pk, pv⟩ := p
    by_cases hpk : pk = k
    · subst hpk
      simp
    · have hk : (k == pk) = false := beq_eq_false_iff_ne.mpr (Ne.symm hpk)
      simp only [List.map_cons]
      dsimp only
      rw [if_neg hpk, List.lookup_cons]
      simp only [hk]
      apply ih
      rw [List.lookup_cons] at h
      simpa [hk] using h

theorem lookup_append_single {β : Type} (l : List (String × β)) (k k2 : String) (v : β) :
    (l ++ [(k, v)]).lookup k2 =
      if k2 == k then some ((l.lookup k2).getD v) else l.lookup k2 := by
  induction l with
  | nil =>
    simp only [List.nil_append, List.lookup_cons, List.lookup_nil]
    cases hk : k2 == k <;> simp
  | cons p t ih =>
    obtain ⟨pk, pv⟩ := p
    simp only [List.cons_append, List.lookup_cons, ih]
    cases hp : k2 == pk <;> cases hk : k2 == k <;> simp [hp, hk]

theorem lookup_dictInsert_self {β : Type} (l : List (String × β)) (k : String) (v : β) :
    (dictInsert l k v).lookup k = some v := by
  unfold dictInsert
  split_ifs with h
  · exact lookup_map_overwrite l k v h
  · rw [lookup_append_single]
    have hnone : l.lookup k = none := Option.not_isSome_iff_eq_none.mp h
    simp [hnone]

theorem lookup_map_overwrite_ne {β : Type} (l : List (String × β)) (k k2 : String) (v : β)
    (hne : k2 ≠ k) :
    (l.map (fun p => if p.1 = k then (k, v) else p)).lookup k2 = l.lookup k2 := by
  induction l with
  | nil => simp
  | cons p t ih =>
    obtain ⟨pk, pv⟩ := p
    by_cases hpk : pk = k
    · have h1 : (k2 == k) = false := beq_eq_false_iff_ne.mpr hne
      have h2 : (k2 == pk) = false := by rw [hpk]; exact h1
      simp only [List.map_cons]
      dsimp only
      rw [if_pos hpk, List.lookup_cons, List.lookup_cons]
      simp only [h1, h2, ih]
    · simp only [List.map_cons]
      dsimp only
      rw [if_neg hpk, List.lookup_cons, List.lookup_cons]
      cases hp : k2 == pk <;> simp [ih]

theorem lookup_dictInsert_ne {β : Type} (l : List (String × β)) (k k2 : String) (v : β)
    (hne : k2 ≠ k) :
    (dictInsert l k v).lookup k2 = l.lookup k2 := by
  unfold dictInsert
  split_ifs with h
  · exact lookup_map_overwrite_ne l k k2 v hne
  · rw [lookup_append_single]
    simp [beq_eq_false_iff_ne.mpr hne]

/-- C7: if cache_set(key, value) succeeds, and the underlying key-value
store returns the stored string, then cache_get(key) returns the
JSON-decoded form of the stored value, i.e. json.loads(json.dumps(value));
dumps and loads model json.dumps and json.loads for an arbitrary value
type. -/
theorem cacheSet_cacheGet_roundtrip {A : Type} (dumps : A -> Option String)
    (loads : String -> Option A) (st : Store) (key : String) (value : A)
    (s : String) (st2 : Store)
    (hdump : dumps value = some s)
    (hset : cacheSet dumps st key value = (true, st2)) :
    cacheGet loads st2 key = loads s := by
  unfold cacheSet at hset
  rw [hdump] at hset
  unfold setCacheKV at hset
  split_ifs at hset with hav
  . injection hset with h1 h2
    subst h2
    unfold cacheGet getCacheKV
    dsimp only
    rw [if_pos hav, lookup_dictInsert_self]
  . injection hset with h1 h2
    exact absurd h1 (by simp)

theorem cacheSet_cacheGet_roundtrip_witness :
    (fun _ : Nat => some "42") 0 = some "42" /\
      cacheSet (fun _ : Nat => some "42") (Store.mk true []) "k" 0 =
        (true, Store.mk true [("k", "42")]) /\
      cacheGet (fun _ => some (7 : Nat)) (Store.mk true [("k", "42")]) "k" =
        (fun _ => some (7 : Nat)) "42" :=
  ⟨rfl, rfl,
   cacheSet_cacheGet_roundtrip (fun _ : Nat => some "42") (fun _ => some (7 : Nat))
     (Store.mk true []) "k" 0 "42" (Store.mk true [("k", "42")]) rfl rfl⟩

/-- C8 counterexample: not every exception caught at the content route layer
becomes an HTTP 500: upload_content_from_url translates a
requests.RequestException (here with message timeout) into an HTTP 400
response. -/
theorem uploadContentFromUrl_requestError_gives_400 :
    uploadContentFromUrlError (RouteOutcome.requestError "timeout") =
      some { status_code := 400,
             detail := "Error downloading content from URL: timeout" } /\
      (400 : Nat) ≠ 500 :=
  ⟨rfl, by decide⟩

/-- C8 (amended): every exception caught at the content route layer is
translated into an HTTP error whose detail contains the string
representation of the exception; the status is 500 in every case except
that upload_content_from_url translates requests.RequestException into
HTTP 400. -/
theorem contentRoutes_error_translation (msg : String) :
    (uploadContentError (RouteOutcome.requestError msg) =
        some { status_code := 500, detail := "Error uploading file: " ++ msg } /\
      msg.data <:+: ("Error uploading file: " ++ msg).data) /\
    (uploadContentError (RouteOutcome.otherError msg) =
        some { status_code := 500, detail := "Error uploading file: " ++ msg } /\
      msg.data <:+: ("Error uploading file: " ++ msg).data) /\
    (uploadContentFromUrlError (RouteOutcome.otherError msg) =
        some { status_code := 500, detail := "Error processing content: " ++ msg } /\
      msg.data <:+: ("Error processing content: " ++ msg).data) /\
    (uploadContentFromUrlError (RouteOutcome.requestError msg) =
        some { status_code := 400,
               detail := "Error downloading content from URL: " ++ msg } /\
      msg.data <:+: ("Error downloading content from URL: " ++ msg).data) := by
  refine ⟨⟨rfl, ?_⟩, ⟨rfl, ?_⟩, ⟨rfl, ?_⟩, ⟨rfl, ?_⟩⟩ <;>
    · rw [String.data_append]
      exact (List.suffix_append _ _).isInfix

/-- C9: set_active_model returns False and leaves the model registry and the
active-version pointer map unchanged when the model type or the version is
not registered; when both are registered it returns True and points
active_models[model_type] at model_version, leaving the registry and the
other pointers unchanged. -/
theorem setActiveModel_spec {A : Type} (st : ManagerState A) (mt mv : String) :
    (st.models.lookup mt = none -> setActiveModel st mt mv = (false, st)) /\
    (forall versions, st.models.lookup mt = some versions ->
      versions.lookup mv = none -> setActiveModel st mt mv = (false, st)) /\
    (forall versions m, st.models.lookup mt = some versions ->
      versions.lookup mv = some m ->
      (setActiveModel st mt mv).1 = true /\
      ((setActiveModel st mt mv).2).models = st.models /\
      ((setActiveModel st mt mv).2).active_models.lookup mt = some mv /\
      (forall k, k ≠ mt ->
        ((setActiveModel st mt mv).2).active_models.lookup k =
          st.active_models.lookup k)) := by
  refine ⟨?_, ?_, ?_⟩
  . intro h
    unfold setActiveModel
    rw [h]
  . intro versions h1 h2
    unfold setActiveModel
    rw [h1]
    dsimp only
    rw [h2]
  . intro versions m h1 h2
    unfold setActiveModel
    rw [h1]
    dsimp only
    rw [h2]
    exact ⟨rfl, rfl, lookup_dictInsert_self _ _ _,
      fun k hk => lookup_dictInsert_ne _ _ _ _ hk⟩

/-- Concrete manager state used to witness setActiveModel_spec. -/
def demoManagerState : ManagerState Nat :=
  { models := [("text_analysis", [("1.0.0", 0)])], active_models := [] }

theorem setActiveModel_spec_witness :
    demoManagerState.models.lookup "text_analysis" = some [("1.0.0", 0)] /\
      ([("1.0.0", (0 : Nat))].lookup "1.0.0" = some 0) /\
      (setActiveModel demoManagerState "text_analysis" "1.0.0").1 = true /\
      ((setActiveModel demoManagerState "text_analysis" "1.0.0").2).models =
        demoManagerState.models /\
      ((setActiveModel demoManagerState "text_analysis" "1.0.0").2).active_models.lookup
        "text_analysis" = some "1.0.0" := by
  have h := (setActiveModel_spec demoManagerState "text_analysis" "1.0.0").2.2
    [("1.0.0", (0 : Nat))] 0 rfl rfl
  exact ⟨rfl, rfl, h.1, h.2.1, h.2.2.1⟩

end VeritasAI
